import Mathlib

/-!
Verification of the authentication layer of the Ecommerce-Backend-APIs
repository: a shallow embedding of src/models/user.js, src/utils/jwt.js,
src/controllers/authController.js (token and lockout logic) and the
Facebook strategy of src/config/passport.js, together with theorems about
the lockout state machine, token hashing, token round trips and the
uniformity of credential errors.

Time is modelled as a natural number of milliseconds (the JavaScript code
compares Date values with Date.now()).  Randomness of crypto.randomBytes
is passed in explicitly as the fresh token string.  The MongoDB collection
is a list of user documents; updateOne on a found document is replacement
of the document with the same email (email is a unique key in the schema).
-/

/-- Model of the Node crypto sha256 hex digest used by the user model and
the auth controller: a deterministic one way digest, abstracted as a tagged
string.  The development relies only on it being a function whose output
differs from its input. -/
def sha256Hex (s : String) : String := "sha256$" ++ s

/-- Model of the bcryptjs password hash (salt fixed by the model); the
compare call of matchPassword is modelled as equality with the stored
hash of the entered password. -/
def bcryptHash (s : String) : String := "bcrypt$" ++ s

/-- The persisted fields of a user document from src/models/user.js that
the authentication logic reads or writes. -/
structure UserDoc where
  id : String
  email : String
  role : String
  password : Option String
  isVerified : Bool
  googleId : Option String
  facebookId : Option String
  emailVerificationToken : Option String
  emailVerificationExpire : Option Nat
  resetPasswordToken : Option String
  resetPasswordExpire : Option Nat
  loginAttempts : Nat
  lockUntil : Option Nat
  lastLogin : Option Nat

deriving instance DecidableEq for UserDoc

deriving instance Repr for UserDoc

/-- The isLocked virtual of the user schema: lockUntil is set and lies
strictly in the future. -/
def UserDoc.isLocked (u : UserDoc) (now : Nat) : Bool :=
  match u.lockUntil with
  | some t => decide (now < t)
  | none => false

/-- Instance method createEmailVerificationToken: store the sha256 digest
of a fresh random token and a 24 hour expiry on the document and return
the plaintext token.  The fresh randomness crypto.randomBytes(20) is the
argument tok. -/
def createEmailVerificationToken (u : UserDoc) (tok : String) (now : Nat) :
    UserDoc × String :=
  ({ u with emailVerificationToken := some (sha256Hex tok),
            emailVerificationExpire := some (now + 24 * 60 * 60 * 1000) }, tok)

/-- Instance method createPasswordResetToken: store the sha256 digest of a
fresh random token and a 10 minute expiry and return the plaintext. -/
def createPasswordResetToken (u : UserDoc) (tok : String) (now : Nat) :
    UserDoc × String :=
  ({ u with resetPasswordToken := some (sha256Hex tok),
            resetPasswordExpire := some (now + 10 * 60 * 1000) }, tok)

/-- Pre-save middleware that bcrypt-hashes a modified password. -/
def hashPasswordHook (u : UserDoc) : UserDoc :=
  { u with password := u.password.map bcryptHash }

/-- Pre-save middleware of user.js lines 135 to 140.  The JavaScript body
is: this.emailVerificationToken = this.createEmailVerificationToken().
The method call on the right hand side first stores the sha256 digest on
the document and returns the plaintext token; the enclosing assignment
then overwrites the stored field with that plaintext return value. -/
def preSaveVerificationHook (u : UserDoc) (isNew : Bool) (tok : String) (now : Nat) :
    UserDoc :=
  if isNew && !u.isVerified && u.googleId == none && u.facebookId == none then
    let r := createEmailVerificationToken u tok now
    { r.1 with emailVerificationToken := some r.2 }
  else
    u

/-- The document persisted by User.create during registration: a new
document on which both pre-save hooks have run.  The password field of the
input holds the raw password from the request body. -/
def registerCreate (u : UserDoc) (tok : String) (now : Nat) : UserDoc :=
  preSaveVerificationHook (hashPasswordHook u) true tok now

/-- The updateOne built by incLoginAttempts when no expired lock is
present: increment loginAttempts, and set a two hour lock when this
failure reaches five attempts on an account that is not already locked. -/
def incStep (u : UserDoc) (now : Nat) : UserDoc :=
  let u1 := { u with loginAttempts := u.loginAttempts + 1 }
  if decide (5 ≤ u.loginAttempts + 1) && !(u.isLocked now) then
    { u1 with lockUntil := some (now + 2 * 60 * 60 * 1000) }
  else
    u1

/-- Instance method incLoginAttempts: a previous lock that has expired
restarts the counter at 1 and removes the lock; otherwise the counter is
incremented and a lock may be set. -/
def incLoginAttempts (u : UserDoc) (now : Nat) : UserDoc :=
  match u.lockUntil with
  | some t =>
    if t < now then
      { u with lockUntil := none, loginAttempts := 1 }
    else
      incStep u now
  | none => incStep u now

/-- Instance method resetLoginAttempts: unset the counter and the lock and
record the login time. -/
def resetLoginAttempts (u : UserDoc) (now : Nat) : UserDoc :=
  { u with loginAttempts := 0, lockUntil := none, lastLogin := some now }

/-- Instance method matchPassword via the bcrypt model: false when no
password is stored, otherwise a bcrypt compare of the entered password
with the stored hash. -/
def UserDoc.matchPassword (u : UserDoc) (entered : String) : Bool :=
  match u.password with
  | some h => bcryptHash entered == h
  | none => false

/-- findOne by email over the collection. -/
def findOneByEmail (db : List UserDoc) (email : String) : Option UserDoc :=
  db.find? (fun u => u.email == email)

/-- updateOne on the document with the given unique email. -/
def updateUser (db : List UserDoc) (email : String) (f : UserDoc → UserDoc) :
    List UserDoc :=
  db.map (fun u => if u.email == email then f u else u)

/-- The two error messages findByCredentials can throw. -/
inductive AuthError where
  | invalidCredentials
  | accountLocked

deriving instance DecidableEq for AuthError

/-- Static method findByCredentials: look up by email, fail uniformly with
invalidCredentials when absent; on a locked account record the attempt and
fail with accountLocked; on a wrong password record the attempt and fail
with invalidCredentials; on success reset a positive attempt counter.  The
second component is the collection after the persisted updates. -/
def findByCredentials (db : List UserDoc) (email pw : String) (now : Nat) :
    Except AuthError UserDoc × List UserDoc :=
  match findOneByEmail db email with
  | none => (Except.error AuthError.invalidCredentials, db)
  | some user =>
    if user.isLocked now then
      (Except.error AuthError.accountLocked,
       updateUser db email (fun v => incLoginAttempts v now))
    else if !(user.matchPassword pw) then
      (Except.error AuthError.invalidCredentials,
       updateUser db email (fun v => incLoginAttempts v now))
    else if 0 < user.loginAttempts then
      (Except.ok user, updateUser db email (fun v => resetLoginAttempts v now))
    else
      (Except.ok user, db)

/-- n consecutive findByCredentials calls with the same email and
password, keeping only the evolving collection. -/
def failTimes (db : List UserDoc) (email pw : String) (now : Nat) : Nat → List UserDoc
  | 0 => db
  | n + 1 => (findByCredentials (failTimes db email pw now n) email pw now).2

/-- The error of the verify-email and reset-password controllers when no
matching unexpired token exists. -/
inductive VerifyError where
  | tokenRequired
  | tokenInvalidOrExpired

deriving instance DecidableEq for VerifyError

/-- The MongoDB expiry condition expireField gt now. -/
def unexpired (expireField : Option Nat) (now : Nat) : Bool :=
  match expireField with
  | some e => decide (now < e)
  | none => false

/-- The verifyEmail controller: hash the submitted token, find a user
whose stored emailVerificationToken equals the hash with an unexpired
emailVerificationExpire; on success mark verified, clear both fields and
persist; otherwise fail and leave the collection unchanged. -/
def verifyEmailOp (db : List UserDoc) (token : Option String) (now : Nat) :
    Except VerifyError UserDoc × List UserDoc :=
  match token with
  | none => (Except.error VerifyError.tokenRequired, db)
  | some tok =>
    let hashed := sha256Hex tok
    match db.find? (fun u => u.emailVerificationToken == some hashed &&
                             unexpired u.emailVerificationExpire now) with
    | none => (Except.error VerifyError.tokenInvalidOrExpired, db)
    | some user =>
      let updated := { user with isVerified := true,
                                 emailVerificationToken := none,
                                 emailVerificationExpire := none }
      (Except.ok updated, updateUser db user.email (fun _ => updated))

/-- The resetPassword controller: hash the submitted token, find a user
with a matching unexpired resetPasswordToken; on success store the new
password (bcrypt-hashed by the pre-save hook), clear the reset fields,
zero loginAttempts, unset lockUntil and persist; otherwise fail with the
collection unchanged. -/
def resetPasswordOp (db : List UserDoc) (token newPassword : String) (now : Nat) :
    Except VerifyError UserDoc × List UserDoc :=
  let hashed := sha256Hex token
  match db.find? (fun u => u.resetPasswordToken == some hashed &&
                           unexpired u.resetPasswordExpire now) with
  | none => (Except.error VerifyError.tokenInvalidOrExpired, db)
  | some user =>
    let updated := { user with password := some (bcryptHash newPassword),
                               resetPasswordToken := none,
                               resetPasswordExpire := none,
                               loginAttempts := 0,
                               lockUntil := none }
    (Except.ok updated, updateUser db user.email (fun _ => updated))

/-- The claims a token carries: subject id, email and role. -/
structure JwtPayload where
  id : String
  email : String
  role : String

deriving instance DecidableEq for JwtPayload

/-- A signed token of the jsonwebtoken model: payload, registered claims
and the secret it was signed with (standing for the signature). -/
structure JwtToken where
  payload : JwtPayload
  iss : String
  sub : String
  exp : Nat
  secret : String

deriving instance DecidableEq for JwtToken

/-- The two verification error kinds of the jsonwebtoken library that the
middleware branches on: TokenExpiredError and JsonWebTokenError. -/
inductive JwtError where
  | tokenExpired
  | jsonWebTokenError

deriving instance DecidableEq for JwtError

/-- jwt.sign with the fixed issuer ecommerce-api and the subject taken
from the payload id, as both token generators of src/utils/jwt.js do. -/
def signToken (payload : JwtPayload) (secret : String) (expiresInMs now : Nat) :
    JwtToken :=
  { payload := payload, iss := "ecommerce-api", sub := payload.id,
    exp := now + expiresInMs, secret := secret }

/-- generateToken of src/utils/jwt.js: its only parameter is the payload;
the expiry always comes from the JWT_EXPIRE configuration, here the
argument jwtExpireMs. -/
def generateToken (payload : JwtPayload) (secret : String) (jwtExpireMs now : Nat) :
    JwtToken :=
  signToken payload secret jwtExpireMs now

def sevenDaysMs : Nat := 7 * 24 * 60 * 60 * 1000

def thirtyDaysMs : Nat := 30 * 24 * 60 * 60 * 1000

/-- generateRefreshToken of src/utils/jwt.js: a fixed seven day expiry. -/
def generateRefreshToken (payload : JwtPayload) (secret : String) (now : Nat) :
    JwtToken :=
  signToken payload secret sevenDaysMs now

/-- Model of jwt.verify with the issuer option: a wrong signature or a
wrong issuer is a JsonWebTokenError, an expiry that is not in the future
is a TokenExpiredError (checked after the signature and before the issuer,
as the library does). -/
def verifyToken (t : JwtToken) (secret : String) (now : Nat) :
    Except JwtError JwtPayload :=
  if t.secret ≠ secret then Except.error JwtError.jsonWebTokenError
  else if t.exp ≤ now then Except.error JwtError.tokenExpired
  else if t.iss ≠ "ecommerce-api" then Except.error JwtError.jsonWebTokenError
  else Except.ok t.payload

/-- The token bundle of createAuthResponse: access token, refresh token
and the reported expiresIn value. -/
structure TokensOut where
  accessToken : JwtToken
  refreshToken : JwtToken
  expiresInMs : Nat

deriving instance DecidableEq for TokensOut

/-- createAuthResponse of src/utils/jwt.js restricted to its token part. -/
def createAuthTokens (u : UserDoc) (secret : String) (jwtExpireMs now : Nat) :
    TokensOut :=
  let payload : JwtPayload := { id := u.id, email := u.email, role := u.role }
  { accessToken := generateToken payload secret jwtExpireMs now,
    refreshToken := generateRefreshToken payload secret now,
    expiresInMs := jwtExpireMs }

/-- The token part of the login controller: createAuthResponse, then the
rememberMe branch replaces the access token and the reported expiresIn.
The controller calls generateToken with a second thirty day argument, but
generateToken has a single parameter and always uses the configured
JWT_EXPIRE, so the extra duration argument is silently dropped; only the
reported expiresIn becomes thirty days. -/
def loginTokens (u : UserDoc) (rememberMe : Bool) (secret : String)
    (jwtExpireMs now : Nat) : TokensOut :=
  let t := createAuthTokens u secret jwtExpireMs now
  if rememberMe then
    let payload : JwtPayload := { id := u.id, email := u.email, role := u.role }
    { t with accessToken := generateToken payload secret jwtExpireMs now,
             expiresInMs := thirtyDaysMs }
  else
    t

/-- The email chosen by the new-user branch of the Facebook strategy
callback in src/config/passport.js: the first profile email when present,
otherwise the fallback built from the provider id at temp.com. -/
def facebookNewUserEmail (profileEmails : List String) (profileId : String) :
    String :=
  match profileEmails with
  | e :: _ => e
  | [] => "facebook_" ++ profileId ++ "@temp.com"

/-- A user document as registration receives it, before any save: the
password field still holds the raw request password. -/
def demoNewUser : UserDoc :=
  { id := "u1", email := "new@example.com", role := "customer",
    password := some "Secret123", isVerified := false,
    googleId := none, facebookId := none,
    emailVerificationToken := none, emailVerificationExpire := none,
    resetPasswordToken := none, resetPasswordExpire := none,
    loginAttempts := 0, lockUntil := none, lastLogin := none }

/-- A verified user with a stored bcrypt password, for concrete witnesses. -/
def demoUser : UserDoc :=
  { id := "u2", email := "user@example.com", role := "customer",
    password := some (bcryptHash "GoodPass1"), isVerified := true,
    googleId := none, facebookId := none,
    emailVerificationToken := none, emailVerificationExpire := none,
    resetPasswordToken := none, resetPasswordExpire := none,
    loginAttempts := 0, lockUntil := none, lastLogin := none }

/-- A concrete payload for token witnesses. -/
def demoPayload : JwtPayload :=
  { id := "u2", email := "user@example.com", role := "customer" }

theorem fail_step (u : UserDoc) (e pw : String) (now : Nat)
    (he : u.email = e)
    (hl : u.lockUntil = none) (hbad : u.matchPassword pw = false)
    (hlt : u.loginAttempts + 1 < 5) :
    findByCredentials [u] e pw now =
      (Except.error AuthError.invalidCredentials,
       [{ u with loginAttempts := u.loginAttempts + 1 }]) := by
  subst he
  have hc : ¬ (5 ≤ u.loginAttempts + 1) := by omega
  simp [findByCredentials, findOneByEmail, UserDoc.isLocked, hl, hbad,
        updateUser, incLoginAttempts, incStep, decide_eq_false hc]
  omega

theorem fail_step_lock (u : UserDoc) (e pw : String) (now : Nat)
    (he : u.email = e)
    (hl : u.lockUntil = none) (hbad : u.matchPassword pw = false)
    (hge : 5 ≤ u.loginAttempts + 1) :
    findByCredentials [u] e pw now =
      (Except.error AuthError.invalidCredentials,
       [{ u with loginAttempts := u.loginAttempts + 1,
                 lockUntil := some (now + 2 * 60 * 60 * 1000) }]) := by
  subst he
  simp [findByCredentials, findOneByEmail, UserDoc.isLocked, hl, hbad,
        updateUser, incLoginAttempts, incStep, decide_eq_true hge]
  omega

theorem locked_step (w : UserDoc) (e pw : String) (now : Nat)
    (he : w.email = e)
    (hlk : w.isLocked now = true) :
    (findByCredentials [w] e pw now).1 =
      Except.error AuthError.accountLocked := by
  subst he
  simp [findByCredentials, findOneByEmail, hlk]

/-- C2: for every account starting from zero failed attempts and no lock,
after 5 consecutive failed findByCredentials calls the derived isLocked
predicate is true, and a 6th findByCredentials call with the correct
password still fails with the accountLocked error. -/
theorem lockout_after_five_failed_logins (u : UserDoc) (pw pwGood : String) (now : Nat)
    (h0 : u.loginAttempts = 0) (hl : u.lockUntil = none)
    (hbad : u.matchPassword pw = false) (_hgood : u.matchPassword pwGood = true) :
    failTimes [u] u.email pw now 5 =
      [{ u with loginAttempts := 5, lockUntil := some (now + 2 * 60 * 60 * 1000) }] ∧
    UserDoc.isLocked
      { u with loginAttempts := 5,
               lockUntil := some (now + 2 * 60 * 60 * 1000) } now = true ∧
    (findByCredentials (failTimes [u] u.email pw now 5) u.email pwGood now).1 =
      Except.error AuthError.accountLocked := by
  have s1 := fail_step u u.email pw now rfl hl hbad (by omega)
  rw [h0] at s1
  norm_num at s1
  have t1 : failTimes [u] u.email pw now 1 = [{ u with loginAttempts := 1 }] := by
    show (findByCredentials (failTimes [u] u.email pw now 0) u.email pw now).2 = _
    rw [show failTimes [u] u.email pw now 0 = [u] from rfl, s1]
  have t2 : failTimes [u] u.email pw now 2 = [{ u with loginAttempts := 2 }] := by
    show (findByCredentials (failTimes [u] u.email pw now 1) u.email pw now).2 = _
    rw [t1, fail_step { u with loginAttempts := 1 } u.email pw now rfl hl hbad (by norm_num)]
  have t3 : failTimes [u] u.email pw now 3 = [{ u with loginAttempts := 3 }] := by
    show (findByCredentials (failTimes [u] u.email pw now 2) u.email pw now).2 = _
    rw [t2, fail_step { u with loginAttempts := 2 } u.email pw now rfl hl hbad (by norm_num)]
  have t4 : failTimes [u] u.email pw now 4 = [{ u with loginAttempts := 4 }] := by
    show (findByCredentials (failTimes [u] u.email pw now 3) u.email pw now).2 = _
    rw [t3, fail_step { u with loginAttempts := 3 } u.email pw now rfl hl hbad (by norm_num)]
  have t5 : failTimes [u] u.email pw now 5 =
      [{ u with loginAttempts := 5, lockUntil := some (now + 2 * 60 * 60 * 1000) }] := by
    show (findByCredentials (failTimes [u] u.email pw now 4) u.email pw now).2 = _
    rw [t4, fail_step_lock { u with loginAttempts := 4 } u.email pw now rfl hl hbad (by norm_num)]
  have hlk : UserDoc.isLocked
      { u with loginAttempts := 5,
               lockUntil := some (now + 2 * 60 * 60 * 1000) } now = true := by
    simp [UserDoc.isLocked]
  refine ⟨t5, hlk, ?_⟩
  rw [t5]
  exact locked_step
    { u with loginAttempts := 5, lockUntil := some (now + 2 * 60 * 60 * 1000) }
    u.email pwGood now rfl hlk

/-- C2 witness: the lockout theorem at a concrete account, wrong password
bad and correct password GoodPass1. -/
theorem lockout_after_five_failed_logins_witness :
    failTimes [demoUser] demoUser.email "bad" 1000 5 =
      [{ demoUser with loginAttempts := 5,
                       lockUntil := some (1000 + 2 * 60 * 60 * 1000) }] ∧
    UserDoc.isLocked
      { demoUser with loginAttempts := 5,
                      lockUntil := some (1000 + 2 * 60 * 60 * 1000) } 1000 = true ∧
    (findByCredentials (failTimes [demoUser] demoUser.email "bad" 1000 5)
        demoUser.email "GoodPass1" 1000).1 =
      Except.error AuthError.accountLocked :=
  lockout_after_five_failed_logins demoUser "bad" "GoodPass1" 1000 rfl rfl
    (by decide) (by decide)

/-- C1 (code bug): the document persisted by User.create during
registration stores the plaintext verification token, not its sha256
digest, because the pre-save hook assigns the plaintext return value of
createEmailVerificationToken over the digest the method stored. -/
theorem register_persists_plaintext_verification_token :
    (registerCreate demoNewUser "4f3c2a" 0).emailVerificationToken = some "4f3c2a" ∧
    "4f3c2a" ≠ sha256Hex "4f3c2a" :=
  ⟨rfl, by decide⟩

/-- C3 counterexample: at a concrete login the refresh token is identical
whether or not rememberMe is set; its expiry is the fixed seven days, not
thirty, and even the rememberMe access token does not receive a thirty day
expiry. -/
theorem refresh_token_fixed_seven_days :
    (loginTokens demoUser true "s" 3600000 0).refreshToken =
      (loginTokens demoUser false "s" 3600000 0).refreshToken ∧
    (loginTokens demoUser true "s" 3600000 0).refreshToken.exp = sevenDaysMs ∧
    sevenDaysMs ≠ thirtyDaysMs ∧
    (loginTokens demoUser true "s" 3600000 0).accessToken.exp ≠ thirtyDaysMs := by
  exact ⟨by decide, by decide, by decide, by decide⟩

/-- C3 amended: the refresh token issued at login always carries the fixed
seven day expiry independent of rememberMe; with rememberMe set the
response reports a thirty day expiresIn and reissues the access token, but
the reissued access token still carries the configured default expiry
because generateToken ignores the duration argument passed to it. -/
theorem login_refresh_seven_days_always (u : UserDoc) (rm : Bool) (secret : String)
    (jwtExpireMs now : Nat) :
    (loginTokens u rm secret jwtExpireMs now).refreshToken.exp = now + sevenDaysMs ∧
    (loginTokens u true secret jwtExpireMs now).accessToken.exp = now + jwtExpireMs ∧
    (loginTokens u true secret jwtExpireMs now).expiresInMs = thirtyDaysMs := by
  refine ⟨?_, rfl, rfl⟩
  cases rm <;> rfl

/-- C4: redeeming a valid unexpired verification token once succeeds,
marks the account verified and clears the stored hash and expiry; a second
redemption of the same token fails with tokenInvalidOrExpired and leaves
the collection unchanged. -/
theorem verify_email_single_use (u : UserDoc) (tok : String) (e now : Nat)
    (hu : u.emailVerificationToken = some (sha256Hex tok))
    (he : u.emailVerificationExpire = some e)
    (hlt : now < e) :
    verifyEmailOp [u] (some tok) now =
      (Except.ok { u with
                   isVerified := true,
                   emailVerificationToken := none,
                   emailVerificationExpire := none },
       [{ u with
          isVerified := true,
          emailVerificationToken := none,
          emailVerificationExpire := none }]) ∧
    verifyEmailOp [{ u with
                     isVerified := true,
                     emailVerificationToken := none,
                     emailVerificationExpire := none }] (some tok) now =
      (Except.error VerifyError.tokenInvalidOrExpired,
       [{ u with
          isVerified := true,
          emailVerificationToken := none,
          emailVerificationExpire := none }]) := by
  constructor
  · simp [verifyEmailOp, hu, he, unexpired, hlt, updateUser]
  · simp [verifyEmailOp, unexpired]

/-- A user holding a valid verification token for the C4 witness. -/
def demoVerifyUser : UserDoc :=
  { demoNewUser with
    email := "verify@example.com",
    emailVerificationToken := some (sha256Hex "vtok"),
    emailVerificationExpire := some 5000 }

/-- C4 witness: single use of a concrete verification token. -/
theorem verify_email_single_use_witness :
    verifyEmailOp [demoVerifyUser] (some "vtok") 0 =
      (Except.ok { demoVerifyUser with
                   isVerified := true,
                   emailVerificationToken := none,
                   emailVerificationExpire := none },
       [{ demoVerifyUser with
          isVerified := true,
          emailVerificationToken := none,
          emailVerificationExpire := none }]) ∧
    verifyEmailOp [{ demoVerifyUser with
                     isVerified := true,
                     emailVerificationToken := none,
                     emailVerificationExpire := none }] (some "vtok") 0 =
      (Except.error VerifyError.tokenInvalidOrExpired,
       [{ demoVerifyUser with
          isVerified := true,
          emailVerificationToken := none,
          emailVerificationExpire := none }]) :=
  verify_email_single_use demoVerifyUser "vtok" 5000 0 rfl rfl (by decide)

/-- C5: when a previous lock has already expired, the next
incLoginAttempts sets the counter to exactly 1 and removes the lock. -/
theorem expired_lock_resets_counter (u : UserDoc) (t now : Nat)
    (hl : u.lockUntil = some t) (hp : t < now) :
    incLoginAttempts u now = { u with loginAttempts := 1, lockUntil := none } := by
  simp [incLoginAttempts, hl, hp]

/-- A user with a stale lock and counter for the C5 witness. -/
def demoStaleLockUser : UserDoc :=
  { demoUser with
    email := "stale@example.com",
    loginAttempts := 5,
    lockUntil := some 10 }

/-- C5 witness: the expired-lock reset at a concrete account. -/
theorem expired_lock_resets_counter_witness :
    incLoginAttempts demoStaleLockUser 1000 =
      { demoStaleLockUser with loginAttempts := 1, lockUntil := none } :=
  expired_lock_resets_counter demoStaleLockUser 10 1000 rfl (by decide)

/-- C6: resetPassword with a valid unexpired reset token succeeds even on
an account whose lock is still active, and the persisted document has
loginAttempts 0, no lockUntil and cleared reset token fields. -/
theorem reset_password_clears_lock (u : UserDoc) (tok newPw : String)
    (e lockT now : Nat)
    (hu : u.resetPasswordToken = some (sha256Hex tok))
    (he : u.resetPasswordExpire = some e)
    (hlt : now < e)
    (_hlock : u.lockUntil = some lockT) (_hfut : now < lockT) :
    resetPasswordOp [u] tok newPw now =
      (Except.ok { u with
                   password := some (bcryptHash newPw),
                   resetPasswordToken := none,
                   resetPasswordExpire := none,
                   loginAttempts := 0,
                   lockUntil := none },
       [{ u with
          password := some (bcryptHash newPw),
          resetPasswordToken := none,
          resetPasswordExpire := none,
          loginAttempts := 0,
          lockUntil := none }]) := by
  simp [resetPasswordOp, hu, he, unexpired, hlt, updateUser]

/-- A locked user holding a valid reset token for the C6 witness. -/
def demoResetUser : UserDoc :=
  { demoUser with
    email := "reset@example.com",
    resetPasswordToken := some (sha256Hex "rtok"),
    resetPasswordExpire := some 2000,
    loginAttempts := 5,
    lockUntil := some 999999 }

/-- C6 witness: the reset at a concrete locked account. -/
theorem reset_password_clears_lock_witness :
    resetPasswordOp [demoResetUser] "rtok" "NewPass1" 100 =
      (Except.ok { demoResetUser with
                   password := some (bcryptHash "NewPass1"),
                   resetPasswordToken := none,
                   resetPasswordExpire := none,
                   loginAttempts := 0,
                   lockUntil := none },
       [{ demoResetUser with
          password := some (bcryptHash "NewPass1"),
          resetPasswordToken := none,
          resetPasswordExpire := none,
          loginAttempts := 0,
          lockUntil := none }]) :=
  reset_password_clears_lock demoResetUser "rtok" "NewPass1" 2000 999999 100
    rfl rfl (by decide) rfl (by decide)

/-- C7: a token issued for a payload and verified with the same secret
before expiry decodes to the original id, email and role under the fixed
issuer ecommerce-api; the same token verified after its expiry has passed
fails with the tokenExpired kind, distinct from the invalid-token kind. -/
theorem token_roundtrip_and_expiry (p : JwtPayload) (secret : String)
    (expMs now later : Nat) (hpos : 0 < expMs) (hpast : now + expMs ≤ later) :
    verifyToken (generateToken p secret expMs now) secret now = Except.ok p ∧
    (generateToken p secret expMs now).iss = "ecommerce-api" ∧
    verifyToken (generateToken p secret expMs now) secret later =
      Except.error JwtError.tokenExpired ∧
    JwtError.tokenExpired ≠ JwtError.jsonWebTokenError := by
  refine ⟨?_, rfl, ?_, by decide⟩
  · have h2 : ¬ (now + expMs ≤ now) := by omega
    simp [verifyToken, generateToken, signToken, h2]
  · simp [verifyToken, generateToken, signToken, hpast]

/-- C7 witness: the round trip and the expiry failure at a concrete
payload, secret and times. -/
theorem token_roundtrip_and_expiry_witness :
    verifyToken (generateToken demoPayload "s" 1000 0) "s" 0 =
      Except.ok demoPayload ∧
    (generateToken demoPayload "s" 1000 0).iss = "ecommerce-api" ∧
    verifyToken (generateToken demoPayload "s" 1000 0) "s" 1000 =
      Except.error JwtError.tokenExpired ∧
    JwtError.tokenExpired ≠ JwtError.jsonWebTokenError :=
  token_roundtrip_and_expiry demoPayload "s" 1000 0 1000 (by decide) (by decide)

/-- C8: a findByCredentials call whose email matches no account and one
that finds an unlocked account but is given a wrong password fail with the
same invalidCredentials error, so absence and wrong password are not
distinguishable from the result. -/
theorem uniform_invalid_credentials (db : List UserDoc) (e1 e2 pw1 pw2 : String)
    (now : Nat) (u : UserDoc)
    (h1 : findOneByEmail db e1 = none)
    (h2 : findOneByEmail db e2 = some u)
    (hnl : u.isLocked now = false)
    (hbad : u.matchPassword pw2 = false) :
    (findByCredentials db e1 pw1 now).1 = Except.error AuthError.invalidCredentials ∧
    (findByCredentials db e2 pw2 now).1 = Except.error AuthError.invalidCredentials := by
  constructor
  · simp [findByCredentials, h1]
  · simp [findByCredentials, h2, hnl, hbad]

/-- C8 witness: one call with an absent email and one with the existing
email and a wrong password, both invalidCredentials. -/
theorem uniform_invalid_credentials_witness :
    (findByCredentials [demoUser] "absent@example.com" "x" 0).1 =
      Except.error AuthError.invalidCredentials ∧
    (findByCredentials [demoUser] demoUser.email "bad" 0).1 =
      Except.error AuthError.invalidCredentials :=
  uniform_invalid_credentials [demoUser] "absent@example.com" demoUser.email
    "x" "bad" 0 demoUser rfl rfl rfl (by decide)

/-- C9 counterexample: with no profile email the Facebook callback
synthesizes facebook_12345@temp.com, which is not the claimed placeholder
at the temp.invalid domain. -/
theorem facebook_placeholder_not_temp_invalid :
    facebookNewUserEmail [] "12345" = "facebook_12345@temp.com" ∧
    facebookNewUserEmail [] "12345" ≠ "facebook_12345@temp.invalid" :=
  ⟨rfl, by decide⟩

/-- C9 amended: the synthesized placeholder for a Facebook profile without
an email is facebook_ followed by the provider id at the temp.com domain;
when the profile carries an email the first profile email is used. -/
theorem facebook_placeholder_email_form (pid e : String) (rest : List String) :
    facebookNewUserEmail [] pid = "facebook_" ++ pid ++ "@temp.com" ∧
    facebookNewUserEmail (e :: rest) pid = e :=
  ⟨rfl, rfl⟩

/-- C10: a failed login attempt on a currently locked account persists an
increment of loginAttempts while lockUntil is unchanged: the lock window
is never extended by failures during the lock. -/
theorem locked_failure_preserves_lock (u : UserDoc) (pw : String) (now : Nat)
    (hlk : u.isLocked now = true) :
    (findByCredentials [u] u.email pw now).2 = [incLoginAttempts u now] ∧
    (incLoginAttempts u now).lockUntil = u.lockUntil ∧
    (incLoginAttempts u now).loginAttempts = u.loginAttempts + 1 := by
  refine ⟨by simp [findByCredentials, findOneByEmail, hlk, updateUser], ?_⟩
  cases h : u.lockUntil with
  | none => simp [UserDoc.isLocked, h] at hlk
  | some t =>
    have hnt : now < t := by
      have h2 := hlk
      simp [UserDoc.isLocked, h] at h2
      exact h2
    have hlt : ¬ (t < now) := by omega
    constructor
    · simp [incLoginAttempts, h, hlt, incStep, UserDoc.isLocked, hnt]
    · simp [incLoginAttempts, h, hlt, incStep, UserDoc.isLocked, hnt]

/-- A currently locked user for the C10 witness. -/
def demoLockedUser : UserDoc :=
  { demoUser with
    email := "locked@example.com",
    loginAttempts := 5,
    lockUntil := some 999999 }

/-- C10 witness: the frame property at a concrete locked account. -/
theorem locked_failure_preserves_lock_witness :
    (findByCredentials [demoLockedUser] demoLockedUser.email "x" 1000).2 =
      [incLoginAttempts demoLockedUser 1000] ∧
    (incLoginAttempts demoLockedUser 1000).lockUntil = demoLockedUser.lockUntil ∧
    (incLoginAttempts demoLockedUser 1000).loginAttempts =
      demoLockedUser.loginAttempts + 1 :=
  locked_failure_preserves_lock demoLockedUser "x" 1000 (by decide)
